import Mathlib

/-!
  # Mycelia Python API — verification of the framing encoder and listener

  Shallow embedding of `src/mycelia/__main__.py`, `src/mycelia/_encode.py`
  and `src/mycelia/_decode.py`.

  Modelling conventions:

  * A Python `bytes` value is a `List Nat` (each element a byte value).
  * A Python `str` is identified with its UTF-8 byte sequence (`List Nat`);
    the source treats strings opaquely and only ever calls
    `s.encode('utf-8')`, so the identification is faithful.
  * Python `int` is `Int` (arbitrary precision, signed); Python's `n & 0xFF`
    on an arbitrary integer equals the nonnegative residue `n % 256`, which
    is `Int.emod` here.
  * A raised exception is an `Except.error` carrying a `PyErr` value that
    records the Python exception class (and which check raised it).
  * `uuid.uuid4()` is a fresh random draw made inside `_encode_mycelia_obj`;
    it is modelled as an explicit `corrId` argument to the encoder.
-/

deriving instance DecidableEq for Except

namespace Mycelia

/-! ## Constants (`__main__.py` lines 29–45) -/

def OBJ_MESSAGE : Nat := 1
def OBJ_TRANSFORMER : Nat := 2
def OBJ_SUBSCRIBER : Nat := 3
def OBJ_GLOBALS : Nat := 20
def OBJ_ACTION : Nat := 50

def CMD_UNKNOWN : Nat := 0
def CMD_SEND : Nat := 1
def CMD_ADD : Nat := 2
def CMD_REMOVE : Nat := 3
def CMD_UPDATE : Nat := 20
def CMD_SIGTERM : Nat := 50

def API_PROTOCOL_VER : Nat := 1

/-! ## Python values and exceptions -/

/-- A value stored in the `payload` attribute.  `_PAYLOAD_TYPE` is
`Union[str, bytes, bytearray, memoryview]`: `str` carries its UTF-8 bytes;
`bytes` stands for any of the byte-like alternatives (`bytes`, `bytearray`,
`memoryview`), which all lack an `encode` method; `other` is any value
outside the annotation (also lacking `encode`). -/
inductive Payload where
  | str (utf8 : List Nat)
  | bytes (data : List Nat)
  | other
deriving DecidableEq

/-- The Python exception classes the modelled code can raise, tagged by the
check that raises them.  The source raises plain `ValueError` for the
command/return-address/argument/empty-update failures,
`MissingSecurityTokenError` in `Globals.__init__`, and an `AttributeError`
when `payload.encode` is accessed on a non-string payload. -/
inductive PyErr where
  | valueErrorInvalidCommand
  | valueErrorMissingReturnAddress
  | valueErrorIncompleteArgs
  | valueErrorEmptyUpdate
  | missingSecurityTokenError
  | attributeErrorNoEncode
deriving DecidableEq

/-! ## Command model (`_MyceliaObj` and its subclasses) -/

/-- Attribute record of `_MyceliaObj` (`__main__.py` lines 54–73). -/
structure MyceliaObj where
  protocol_version : Nat
  obj_type : Nat
  cmd_type : Nat
  return_address : List Nat
  arg1 : List Nat
  arg2 : List Nat
  arg3 : List Nat
  arg4 : List Nat
  payload : Payload
deriving DecidableEq

/-- The per-class `cmd_valid` property, dispatched on `obj_type`.  In Python
the dispatch is on the object's class, but every constructor fixes
`obj_type` to its class tag, so for constructor-produced objects the class
is recovered from `obj_type`; unknown tags correspond to the abstract base
class, whose property raises `NotImplementedError` (never a `True`). -/
def cmd_valid (obj : MyceliaObj) : Bool :=
  if obj.obj_type = OBJ_MESSAGE then obj.cmd_type = CMD_SEND
  else if obj.obj_type = OBJ_TRANSFORMER then
    obj.cmd_type = CMD_ADD ∨ obj.cmd_type = CMD_REMOVE
  else if obj.obj_type = OBJ_SUBSCRIBER then
    obj.cmd_type = CMD_ADD ∨ obj.cmd_type = CMD_REMOVE
  else if obj.obj_type = OBJ_GLOBALS then obj.cmd_type = CMD_UPDATE
  else if obj.obj_type = OBJ_ACTION then obj.cmd_type = CMD_SIGTERM
  else false

/-- `Message.__init__` (`__main__.py` lines 80–97).  Performs no checks. -/
def Message (return_address route : List Nat) (payload : Payload) : MyceliaObj :=
  { protocol_version := API_PROTOCOL_VER
    obj_type := OBJ_MESSAGE
    cmd_type := CMD_SEND
    return_address := return_address
    arg1 := route
    arg2 := []
    arg3 := []
    arg4 := []
    payload := payload }

/-- `Transformer.__init__` (`__main__.py` lines 104–123). -/
def Transformer (return_address route channel address : List Nat) : MyceliaObj :=
  { protocol_version := API_PROTOCOL_VER
    obj_type := OBJ_TRANSFORMER
    cmd_type := CMD_ADD
    return_address := return_address
    arg1 := route
    arg2 := channel
    arg3 := address
    arg4 := []
    payload := Payload.str [] }

/-- `Subscriber.__init__` (`__main__.py` lines 130–149). -/
def Subscriber (return_address route channel address : List Nat) : MyceliaObj :=
  { protocol_version := API_PROTOCOL_VER
    obj_type := OBJ_SUBSCRIBER
    cmd_type := CMD_ADD
    return_address := return_address
    arg1 := route
    arg2 := channel
    arg3 := address
    arg4 := []
    payload := Payload.str [] }

/-- `Action.__init__` (`__main__.py` lines 210–219): sets `cmd_type` to
`_CMD_UNKNOWN`, which is outside its own valid command set. -/
def Action (return_address : List Nat) : MyceliaObj :=
  { protocol_version := API_PROTOCOL_VER
    obj_type := OBJ_ACTION
    cmd_type := CMD_UNKNOWN
    return_address := return_address
    arg1 := []
    arg2 := []
    arg3 := []
    arg4 := []
    payload := Payload.str [] }

/-! ## Integer and length-prefixed primitives

`__main__.py` lines 228–264 and `_encode.py` lines 14–50; the two files
contain byte-for-byte identical function bodies. -/

/-- `_u8`: `struct.pack('>B', n & 0xFF)`. -/
def u8 (n : Int) : List Nat := [(n % 256).toNat]

/-- `_u16`: `struct.pack('>H', n & 0xFFFF)` (big-endian). -/
def u16 (n : Int) : List Nat :=
  [(n % 65536).toNat / 256, (n % 65536).toNat % 256]

/-- `_u32`: `struct.pack('>I', n & 0xFFFFFFFF)` (big-endian). -/
def u32 (n : Int) : List Nat :=
  [(n % 4294967296).toNat / 16777216,
   (n % 4294967296).toNat / 65536 % 256,
   (n % 4294967296).toNat / 256 % 256,
   (n % 4294967296).toNat % 256]

/-- `_pstr8`: `[u8 len][bytes]` — note there is no bound check on `len`. -/
def pstr8 (s : List Nat) : List Nat := u8 s.length ++ s

/-- `_pstr16`: `[u16 len][bytes]` — no bound check on `len`. -/
def pstr16 (s : List Nat) : List Nat := u16 s.length ++ s

/-- `_pstr32`: `[u32 len][bytes]` — no bound check on `len`. -/
def pstr32 (s : List Nat) : List Nat := u32 s.length ++ s

/-- `_pbytes16`: `[u16 len][bytes]` — no bound check on `len`. -/
def pbytes16 (b : List Nat) : List Nat := u16 b.length ++ b

/-- `write_u8` from `_encode.py` (same body as `_u8`). -/
def write_u8 (n : Int) : List Nat := [(n % 256).toNat]

/-- `write_u16` from `_encode.py` (same body as `_u16`). -/
def write_u16 (n : Int) : List Nat :=
  [(n % 65536).toNat / 256, (n % 65536).toNat % 256]

/-- `write_u32` from `_encode.py` (same body as `_u32`). -/
def write_u32 (n : Int) : List Nat :=
  [(n % 4294967296).toNat / 16777216,
   (n % 4294967296).toNat / 65536 % 256,
   (n % 4294967296).toNat / 256 % 256,
   (n % 4294967296).toNat % 256]

/-- `write_str8` from `_encode.py` (same body as `_pstr8`). -/
def write_str8 (s : List Nat) : List Nat := write_u8 s.length ++ s

/-- `write_str16` from `_encode.py` (same body as `_pstr16`). -/
def write_str16 (s : List Nat) : List Nat := write_u16 s.length ++ s

/-- `write_str32` from `_encode.py` (same body as `_pstr32`). -/
def write_str32 (s : List Nat) : List Nat := write_u32 s.length ++ s

/-- `write_bytes16` from `_encode.py` (same body as `_pbytes16`). -/
def write_bytes16 (b : List Nat) : List Nat := write_u16 b.length ++ b

/-- Big-endian value of a byte list (`b0*256^(k-1) + … + b(k-1)`), used to
read back the fixed-width fields the encoders emit. -/
def bytesToNat (bs : List Nat) : Nat := bs.foldl (fun a b => a * 256 + b) 0

/-- The value of a frame's leading `u32 total_frame_length` field. -/
def readU32 (frame : List Nat) : Nat := bytesToNat (frame.take 4)

/-! ## The frame encoder (`_encode_mycelia_obj`, `__main__.py` lines 267–299) -/

/-- The expression `obj.payload.encode(_ENCODING)` on line 294: a `str`
payload yields its UTF-8 bytes; every other payload (including the
byte-like values the `_PAYLOAD_TYPE` annotation admits) has no `encode`
method and raises `AttributeError`. -/
def payloadEncode : Payload → Except PyErr (List Nat)
  | Payload.str s => Except.ok s
  | Payload.bytes _ => Except.error PyErr.attributeErrorNoEncode
  | Payload.other => Except.error PyErr.attributeErrorNoEncode

/-- `_encode_mycelia_obj(obj)`, with the fresh `uuid.uuid4()` string drawn
on line 279 made explicit as the `corrId` argument (its UTF-8 bytes).  The
checks appear in source order: command validity, return address, argument
completeness, then the payload `encode` call; an error return models a
raised exception, in which case no bytes are produced. -/
def encode_mycelia_obj (corrId : List Nat) (obj : MyceliaObj) :
    Except PyErr (List Nat) :=
  if cmd_valid obj = false then
    Except.error PyErr.valueErrorInvalidCommand
  else if obj.return_address = [] then
    Except.error PyErr.valueErrorMissingReturnAddress
  else if (obj.obj_type = OBJ_MESSAGE ∨ obj.obj_type = OBJ_SUBSCRIBER ∨
      obj.obj_type = OBJ_TRANSFORMER) ∧ obj.arg1 = [] then
    Except.error PyErr.valueErrorIncompleteArgs
  else
    match payloadEncode obj.payload with
    | Except.error e => Except.error e
    | Except.ok pb =>
      Except.ok
        (u32 (u8 obj.protocol_version ++ u8 obj.obj_type ++ u8 obj.cmd_type ++
              pstr8 corrId ++ pstr16 obj.return_address ++
              pstr8 obj.arg1 ++ pstr8 obj.arg2 ++ pstr8 obj.arg3 ++
              pstr8 obj.arg4 ++ pbytes16 pb).length ++
         (u8 obj.protocol_version ++ u8 obj.obj_type ++ u8 obj.cmd_type ++
          pstr8 corrId ++ pstr16 obj.return_address ++
          pstr8 obj.arg1 ++ pstr8 obj.arg2 ++ pstr8 obj.arg3 ++
          pstr8 obj.arg4 ++ pbytes16 pb))

/-! ## `GlobalValues` and `Globals.__init__` (`__main__.py` lines 156–207) -/

/-- The `GlobalValues` data struct with its class-level defaults. -/
structure GlobalValues where
  address : List Nat := []
  port : Int := -1
  verbosity : Int := -1
  print_tree : Option Bool := none
  transform_timeout : List Nat := []
  consolidate : Option Bool := none
  security_token : List Nat := []
deriving DecidableEq

/-- One entry of the sparse update dict built in `Globals.__init__`,
keyed by the recognized `GlobalValues` field. -/
inductive GEntry where
  | address (v : List Nat)
  | port (v : Int)
  | verbosity (v : Int)
  | print_tree (v : Bool)
  | transform_timeout (v : List Nat)
  | consolidate (v : Bool)
  | security_token (v : List Nat)
deriving DecidableEq

/-- Models the Python stdlib call `json.dumps(data)` on the sparse update
entries as a concrete injective byte rendering.  The exact JSON text is
stdlib behaviour outside this repository and no theorem below depends on
these bytes — only on which entries exist and on the construction-time
error behaviour around them. -/
def json_dumps (entries : List GEntry) : List Nat :=
  (entries.map fun e =>
    match e with
    | GEntry.address v => 0 :: pstr16 v
    | GEntry.port v => 1 :: u16 v
    | GEntry.verbosity v => 2 :: u8 v
    | GEntry.print_tree v => 3 :: [if v then 1 else 0]
    | GEntry.transform_timeout v => 4 :: pstr16 v
    | GEntry.consolidate v => 5 :: [if v then 1 else 0]
    | GEntry.security_token v => 6 :: pstr16 v).flatten

/-- `Globals.__init__`: collects the explicitly-set fields in source order,
raises `MissingSecurityTokenError` when the token is empty, otherwise adds
the token to the dict; the subsequent `if not data: raise ValueError(...)`
check sees a dict that always contains the token entry. -/
def Globals (return_address : List Nat) (p : GlobalValues) :
    Except PyErr MyceliaObj :=
  let data :=
    (if p.address ≠ [] then [GEntry.address p.address] else []) ++
    (if 0 < p.port ∧ p.port < 65536 then [GEntry.port p.port] else []) ++
    (if -1 < p.verbosity ∧ p.verbosity < 4 then
      [GEntry.verbosity p.verbosity] else []) ++
    (match p.print_tree with
     | some b => [GEntry.print_tree b]
     | none => []) ++
    (if p.transform_timeout ≠ [] then
      [GEntry.transform_timeout p.transform_timeout] else []) ++
    (match p.consolidate with
     | some b => [GEntry.consolidate b]
     | none => [])
  if p.security_token = [] then
    Except.error PyErr.missingSecurityTokenError
  else
    let data := data ++ [GEntry.security_token p.security_token]
    if data = [] then
      Except.error PyErr.valueErrorEmptyUpdate
    else
      Except.ok
        { protocol_version := API_PROTOCOL_VER
          obj_type := OBJ_GLOBALS
          cmd_type := CMD_UPDATE
          return_address := return_address
          arg1 := []
          arg2 := []
          arg3 := []
          arg4 := []
          payload := Payload.str (json_dumps data) }

/-! ## The listener's per-connection loop and `recv_exact`

A socket read sequence is modelled by the list of byte chunks successive
`recv` calls deliver; an empty chunk models the peer closing the
connection.  The chunk list ends when the peer stops sending. -/

/-- The inner `while` of `MyceliaListener._listen` (`__main__.py` lines
381–392) for one connection with the stop event unset: each
`conn.recv(1024)` result is handed directly to the message processor; an
empty read ends the connection.  The returned list is the sequence of
arguments passed to the processor. -/
def listen_conn (chunks : List (List Nat)) : List (List Nat) :=
  match chunks with
  | [] => []
  | payload :: rest =>
    if payload = [] then [] else payload :: listen_conn rest

/-- `recv_exact(sock, n)` from `_decode.py` lines 11–21: loops
`sock.recv(remaining)` until exactly `n` bytes are collected.  A `recv`
of the next chunk delivers at most the requested `remaining` bytes; an
empty read raises `ConnectionError`, modelled as `none`. -/
def recv_exact (chunks : List (List Nat)) (n : Nat) : Option (List Nat) :=
  if n = 0 then some []
  else
    match chunks with
    | [] => none
    | c :: rest =>
      if c = [] then none
      else
        match recv_exact rest (n - (c.take n).length) with
        | none => none
        | some tail => some (c.take n ++ tail)

/-! ## The spec-side wire layout (for the refinement comparison) -/

/-- Modelled from the specification's wire layout: everything after the
leading `u32 total_frame_length` — `u8` protocol version, `u8` obj type,
`u8` cmd type, 8-bit length-prefixed correlation id, 16-bit length-prefixed
return address, four 8-bit length-prefixed argument slots, 16-bit
length-prefixed payload bytes. -/
def specFrameBody (corrId : List Nat) (obj : MyceliaObj) (payloadBytes : List Nat) :
    List Nat :=
  u8 obj.protocol_version ++ u8 obj.obj_type ++ u8 obj.cmd_type ++
  pstr8 corrId ++ pstr16 obj.return_address ++
  pstr8 obj.arg1 ++ pstr8 obj.arg2 ++ pstr8 obj.arg3 ++ pstr8 obj.arg4 ++
  pbytes16 payloadBytes

/-- Modelled from the spec: the valid-command-set table of §4.2, as the set
of admissible `(obj_type, cmd_type)` pairs. -/
def spec_valid_pairs : List (Nat × Nat) :=
  [(OBJ_MESSAGE, CMD_SEND),
   (OBJ_TRANSFORMER, CMD_ADD), (OBJ_TRANSFORMER, CMD_REMOVE),
   (OBJ_SUBSCRIBER, CMD_ADD), (OBJ_SUBSCRIBER, CMD_REMOVE),
   (OBJ_GLOBALS, CMD_UPDATE),
   (OBJ_ACTION, CMD_SIGTERM)]

/-! ## Helper lemmas -/

/-- On a natural number, `_u8` emits the single byte `n % 256`. -/
theorem u8_natCast (n : Nat) : u8 (n : Int) = [n % 256] := by
  simp only [u8, List.cons.injEq, and_true]
  omega

/-- On a natural number, `_u16` emits the two big-endian bytes of `n % 65536`. -/
theorem u16_natCast (n : Nat) :
    u16 (n : Int) = [n % 65536 / 256, n % 256] := by
  simp only [u16, List.cons.injEq, and_true]
  refine ⟨by omega, by omega⟩

/-- On a natural number, `_u32` emits the four big-endian bytes of
`n % 4294967296`. -/
theorem u32_natCast (n : Nat) :
    u32 (n : Int) = [n % 4294967296 / 16777216,
      n % 4294967296 / 65536 % 256, n % 4294967296 / 256 % 256, n % 256] := by
  simp only [u32, List.cons.injEq, and_true]
  refine ⟨by omega, by omega, by omega, by omega⟩

theorem u8_length (n : Int) : (u8 n).length = 1 := rfl

theorem u16_length (n : Int) : (u16 n).length = 2 := rfl

theorem u32_length (n : Int) : (u32 n).length = 4 := rfl

/-- `_pstr8` prepends the byte length reduced modulo 256. -/
theorem pstr8_eq (s : List Nat) : pstr8 s = s.length % 256 :: s := by
  rw [pstr8, u8_natCast, List.singleton_append]

/-- `_pstr16` prepends the two big-endian bytes of the length modulo 65536. -/
theorem pstr16_eq (s : List Nat) :
    pstr16 s = s.length % 65536 / 256 :: s.length % 256 :: s := by
  rw [pstr16, u16_natCast, List.cons_append, List.singleton_append]

/-- `_pbytes16` prepends the two big-endian bytes of the length modulo 65536. -/
theorem pbytes16_eq (b : List Nat) :
    pbytes16 b = b.length % 65536 / 256 :: b.length % 256 :: b := by
  rw [pbytes16, u16_natCast, List.cons_append, List.singleton_append]

theorem pstr8_length (s : List Nat) : (pstr8 s).length = s.length + 1 := by
  simp [pstr8, u8]

theorem pstr16_length (s : List Nat) : (pstr16 s).length = s.length + 2 := by
  simp [pstr16, u16]

theorem pbytes16_length (b : List Nat) : (pbytes16 b).length = b.length + 2 := by
  simp [pbytes16, u16]

/-- Reading back the leading `u32` recovers the encoded value modulo 2^32. -/
theorem readU32_u32 (L : Nat) (rest : List Nat) :
    readU32 (u32 (L : Int) ++ rest) = L % 4294967296 := by
  rw [u32_natCast]
  simp only [readU32, bytesToNat, List.cons_append, List.take_succ_cons,
    List.take_zero, List.foldl_cons, List.foldl_nil]
  omega

/-- Shape of every successful encoder result: the exact byte sequence built
on lines 271–297, with the payload bytes produced by `payload.encode`. -/
theorem encode_ok_shape (c : List Nat) (o : MyceliaObj) (f : List Nat)
    (h : encode_mycelia_obj c o = Except.ok f) :
    ∃ pb, payloadEncode o.payload = Except.ok pb ∧
      f = u32 ((u8 o.protocol_version ++ u8 o.obj_type ++ u8 o.cmd_type ++
            pstr8 c ++ pstr16 o.return_address ++ pstr8 o.arg1 ++
            pstr8 o.arg2 ++ pstr8 o.arg3 ++ pstr8 o.arg4 ++
            pbytes16 pb).length) ++
          (u8 o.protocol_version ++ u8 o.obj_type ++ u8 o.cmd_type ++
           pstr8 c ++ pstr16 o.return_address ++ pstr8 o.arg1 ++
           pstr8 o.arg2 ++ pstr8 o.arg3 ++ pstr8 o.arg4 ++
           pbytes16 pb) := by
  unfold encode_mycelia_obj at h
  split at h
  · simp at h
  · split at h
    · simp at h
    · split at h
      · simp at h
      · split at h
        · simp at h
        · rename_i pb hpb
          refine ⟨pb, hpb, ?_⟩
          injection h with h
          exact h.symm

/-- A successful encode implies the validity checks passed. -/
theorem encode_ok_conditions (c : List Nat) (o : MyceliaObj) (f : List Nat)
    (h : encode_mycelia_obj c o = Except.ok f) :
    cmd_valid o = true ∧ o.return_address ≠ [] ∧
      ¬((o.obj_type = OBJ_MESSAGE ∨ o.obj_type = OBJ_SUBSCRIBER ∨
         o.obj_type = OBJ_TRANSFORMER) ∧ o.arg1 = []) := by
  unfold encode_mycelia_obj at h
  split at h
  · simp at h
  · split at h
    · simp at h
    · split at h
      · simp at h
      · rename_i h1 h2 h3
        exact ⟨by simpa using h1, h2, h3⟩

/-- An invalid command is rejected first, with the line-269 `ValueError`. -/
theorem encode_invalid_cmd (c : List Nat) (o : MyceliaObj)
    (h : cmd_valid o = false) :
    encode_mycelia_obj c o = Except.error PyErr.valueErrorInvalidCommand := by
  unfold encode_mycelia_obj
  simp [h]

/-! ## Claim theorems -/

/-- C9: for every integer `n`, `encodeU8/U16/U32` return the big-endian
fixed-width bytes of `n` truncated to the width via modulo (2^8, 2^16,
2^32), and never raise an overflow error.  The encoders are total
functions; `bytesToNat` reads the big-endian value back, the length and
byte-range conjuncts pin the fixed-width byte shape, and the `_encode.py`
copies `write_u8/u16/u32` agree with the `__main__.py` ones. -/
theorem C9_fixed_width_encoders_wrap (n : Int) :
    bytesToNat (u8 n) = (n % 256).toNat ∧ (u8 n).length = 1 ∧
    (u8 n).all (fun b => b < 256) = true ∧
    bytesToNat (u16 n) = (n % 65536).toNat ∧ (u16 n).length = 2 ∧
    (u16 n).all (fun b => b < 256) = true ∧
    bytesToNat (u32 n) = (n % 4294967296).toNat ∧ (u32 n).length = 4 ∧
    (u32 n).all (fun b => b < 256) = true ∧
    write_u8 n = u8 n ∧ write_u16 n = u16 n ∧ write_u32 n = u32 n := by
  refine ⟨?_, rfl, ?_, ?_, rfl, ?_, ?_, rfl, ?_, rfl, rfl, rfl⟩ <;>
    simp only [bytesToNat, u8, u16, u32, List.foldl_cons, List.foldl_nil,
      List.all_cons, List.all_nil, Bool.and_true, Bool.and_eq_true,
      decide_eq_true_eq] <;>
    omega

/-- C4: for every `obj_type`, the `cmd_type` values `cmd_valid` accepts are
exactly the spec table (MESSAGE: SEND; TRANSFORMER: ADD, REMOVE;
SUBSCRIBER: ADD, REMOVE; GLOBALS: UPDATE; ACTION: SIGTERM), and the encoder
rejects a command outside the table with the invalid-command `ValueError`
before producing any bytes. -/
theorem C4_valid_command_sets :
    (∀ obj : MyceliaObj,
      cmd_valid obj = true ↔ (obj.obj_type, obj.cmd_type) ∈ spec_valid_pairs) ∧
    (∀ (c : List Nat) (obj : MyceliaObj),
      (obj.obj_type, obj.cmd_type) ∉ spec_valid_pairs →
      encode_mycelia_obj c obj = Except.error PyErr.valueErrorInvalidCommand) := by
  have tbl : ∀ obj : MyceliaObj,
      cmd_valid obj = true ↔ (obj.obj_type, obj.cmd_type) ∈ spec_valid_pairs := by
    intro obj
    unfold cmd_valid spec_valid_pairs
    split_ifs with h1 h2 h3 h4 h5 <;>
      simp_all [OBJ_MESSAGE, OBJ_TRANSFORMER, OBJ_SUBSCRIBER, OBJ_GLOBALS,
        OBJ_ACTION, CMD_SEND, CMD_ADD, CMD_REMOVE, CMD_UPDATE, CMD_SIGTERM,
        Prod.ext_iff]
  refine ⟨tbl, fun c obj h => encode_invalid_cmd c obj ?_⟩
  cases hcv : cmd_valid obj
  · rfl
  · exact absurd ((tbl obj).mp hcv) h

/-- C4 witness: a fresh `Action` carries the pair `(ACTION, UNKNOWN)`,
which is outside the table, and is rejected with the invalid-command
error. -/
theorem C4_valid_command_sets_witness :
    ((Action [65]).obj_type, (Action [65]).cmd_type) ∉ spec_valid_pairs ∧
    encode_mycelia_obj [] (Action [65]) =
      Except.error PyErr.valueErrorInvalidCommand :=
  ⟨by decide, C4_valid_command_sets.2 [] (Action [65]) (by decide)⟩

/-- C3 counterexample: a string of 256 bytes does not fail with an
encoding error — `_pstr8` (a total function, with no length check anywhere
in the repository, and no `EncodingError` class at all) emits a wrapped
length byte `0` followed by all 256 content bytes. -/
theorem C3_counterexample :
    pstr8 (List.replicate 256 97) = 0 :: List.replicate 256 97 ∧
    (pstr8 (List.replicate 256 97)).length = 257 := by
  constructor
  · rw [pstr8_eq]
    norm_num
  · rw [pstr8_length]
    norm_num

/-- C3 (amended): the length-prefixed string encoders never fail; they emit
the UTF-8 bytes preceded by the byte length reduced modulo the width.  For
strings within the width maximum (255, 65535, 2^32 − 1) the prefix is the
exact length — in particular exactly-255-byte (resp. 65535) strings encode
with prefixes 255 (resp. 255,255) — while one byte over silently wraps the
prefix to zero instead of raising.  The `_encode.py` copies agree. -/
theorem C3_length_prefixed_strings_wrap :
    (∀ s : List Nat, pstr8 s = s.length % 256 :: s) ∧
    (∀ s : List Nat, pstr16 s = s.length % 65536 / 256 :: s.length % 256 :: s) ∧
    (∀ s : List Nat, readU32 (pstr32 s) = s.length % 4294967296) ∧
    (∀ s : List Nat, s.length ≤ 255 → pstr8 s = s.length :: s) ∧
    (∀ s : List Nat, s.length ≤ 65535 →
      pstr16 s = s.length / 256 :: s.length % 256 :: s) ∧
    pstr8 (List.replicate 255 97) = 255 :: List.replicate 255 97 ∧
    pstr16 (List.replicate 65535 97) = 255 :: 255 :: List.replicate 65535 97 ∧
    pstr16 (List.replicate 65536 97) = 0 :: 0 :: List.replicate 65536 97 ∧
    (∀ s : List Nat, write_str8 s = pstr8 s ∧ write_str16 s = pstr16 s ∧
      write_str32 s = pstr32 s) := by
  refine ⟨pstr8_eq, pstr16_eq, ?_, ?_, ?_, ?_, ?_, ?_, fun s => ⟨rfl, rfl, rfl⟩⟩
  · intro s
    rw [pstr32]
    exact readU32_u32 s.length s
  · intro s h
    rw [pstr8_eq, Nat.mod_eq_of_lt (by omega)]
  · intro s h
    rw [pstr16_eq, Nat.mod_eq_of_lt (by omega)]
  · rw [pstr8_eq]
    norm_num
  · rw [pstr16_eq]
    norm_num
  · rw [pstr16_eq]
    norm_num

/-- C3 witness: a two-byte string is within the 8-bit width and encodes
with its exact length as prefix. -/
theorem C3_length_prefixed_strings_wrap_witness :
    ([97, 98] : List Nat).length ≤ 255 ∧
    pstr8 [97, 98] = 2 :: [97, 98] :=
  ⟨by decide, C3_length_prefixed_strings_wrap.2.2.2.1 [97, 98] (by decide)⟩

/-- C8: the encoder crashes on the byte-like payloads its own
`_PAYLOAD_TYPE` annotation admits.  Line 294 calls
`obj.payload.encode('utf-8')`, which only `str` supports: a `bytes`
payload raises `AttributeError` (as does any non-string payload — there is
no `UnsupportedPayloadTypeError` class), while the same command with a
`str` payload produces the full frame. -/
theorem C8_payload_encode_attribute_error :
    encode_mycelia_obj []
        (Message [65] [114] (Payload.bytes [104, 101, 108, 108, 111])) =
      Except.error PyErr.attributeErrorNoEncode ∧
    encode_mycelia_obj [] (Message [65] [114] Payload.other) =
      Except.error PyErr.attributeErrorNoEncode ∧
    encode_mycelia_obj []
        (Message [65] [114] (Payload.str [104, 101, 108, 108, 111])) =
      Except.ok [0, 0, 0, 19, 1, 1, 1, 0, 0, 1, 65, 1, 114, 0, 0, 0,
        0, 5, 104, 101, 108, 108, 111] := by
  refine ⟨by decide, by decide, by decide⟩

/-- C10: a freshly constructed `Action` has `cmd_type` UNKNOWN, which is
outside its valid command set, so encoding it always raises the
invalid-command error; an ACTION command encodes successfully only if its
`cmd_type` has first been mutated to `CMD_SIGTERM` (and then, with a
nonempty return address, it does encode). -/
theorem C10_action_requires_sigterm_mutation :
    (∀ ra : List Nat, (Action ra).cmd_type = CMD_UNKNOWN) ∧
    (∀ ra : List Nat, cmd_valid (Action ra) = false) ∧
    (∀ ra c : List Nat, encode_mycelia_obj c (Action ra) =
      Except.error PyErr.valueErrorInvalidCommand) ∧
    (∀ (c : List Nat) (obj : MyceliaObj) (f : List Nat),
      obj.obj_type = OBJ_ACTION → encode_mycelia_obj c obj = Except.ok f →
      obj.cmd_type = CMD_SIGTERM) ∧
    (∀ ra c : List Nat, ra ≠ [] →
      ∃ f, encode_mycelia_obj c { Action ra with cmd_type := CMD_SIGTERM } =
        Except.ok f) := by
  have hvalid : ∀ ra : List Nat, cmd_valid (Action ra) = false := by
    intro ra
    simp [cmd_valid, Action, OBJ_MESSAGE, OBJ_TRANSFORMER, OBJ_SUBSCRIBER,
      OBJ_GLOBALS, OBJ_ACTION, CMD_SIGTERM, CMD_UNKNOWN]
  refine ⟨fun ra => rfl, hvalid, fun ra c => encode_invalid_cmd c (Action ra)
    (hvalid ra), ?_, ?_⟩
  · intro c obj f hobj hok
    have hcv := (encode_ok_conditions c obj f hok).1
    rw [cmd_valid, hobj] at hcv
    simp [OBJ_MESSAGE, OBJ_TRANSFORMER, OBJ_SUBSCRIBER, OBJ_GLOBALS,
      OBJ_ACTION] at hcv
    exact hcv
  · intro ra c h
    simp [encode_mycelia_obj, cmd_valid, Action, payloadEncode, OBJ_MESSAGE,
      OBJ_TRANSFORMER, OBJ_SUBSCRIBER, OBJ_GLOBALS, OBJ_ACTION, CMD_SIGTERM, h]

/-- C10 witness: a concrete mutated `Action` with return address `"A"`
encodes successfully. -/
theorem C10_action_requires_sigterm_mutation_witness :
    ([65] : List Nat) ≠ [] ∧
    ∃ f, encode_mycelia_obj [] { Action [65] with cmd_type := CMD_SIGTERM } =
      Except.ok f :=
  ⟨by decide,
   C10_action_requires_sigterm_mutation.2.2.2.2 [65] [] (by decide)⟩

/-- C5 counterexample: neither error is raised at construction time and
neither claimed error class exists.  `Message.__init__` performs no checks,
so a `Message` with empty return address (and one with an empty route) is
constructed successfully, and the rejection happens only inside
`_encode_mycelia_obj` — as a plain `ValueError`, there being no
`MissingReturnAddressError` or `IncompleteArgumentsError` class anywhere
in the repository. -/
theorem C5_counterexample :
    (Message [] [114] (Payload.str [])).return_address = [] ∧
    encode_mycelia_obj [] (Message [] [114] (Payload.str [])) =
      Except.error PyErr.valueErrorMissingReturnAddress ∧
    (Message [65] [] (Payload.str [])).arg1 = [] ∧
    encode_mycelia_obj [] (Message [65] [] (Payload.str [])) =
      Except.error PyErr.valueErrorIncompleteArgs :=
  ⟨rfl, by decide, rfl, by decide⟩

/-- C5 (amended): a command with empty return address is rejected with the
line-281 `ValueError`, and a MESSAGE/SUBSCRIBER/TRANSFORMER command with an
empty route (`arg1`) with the line-287 `ValueError`; both checks run inside
the encoder (after command validation, before any bytes are returned), not
in the constructors. -/
theorem C5_validation_raised_at_encode_time :
    (∀ (c : List Nat) (obj : MyceliaObj), cmd_valid obj = true →
      obj.return_address = [] →
      encode_mycelia_obj c obj =
        Except.error PyErr.valueErrorMissingReturnAddress) ∧
    (∀ (c : List Nat) (obj : MyceliaObj), cmd_valid obj = true →
      obj.return_address ≠ [] →
      (obj.obj_type = OBJ_MESSAGE ∨ obj.obj_type = OBJ_SUBSCRIBER ∨
       obj.obj_type = OBJ_TRANSFORMER) → obj.arg1 = [] →
      encode_mycelia_obj c obj = Except.error PyErr.valueErrorIncompleteArgs) := by
  constructor
  · intro c obj h1 h2
    unfold encode_mycelia_obj
    simp [h1, h2]
  · intro c obj h1 h2 h3 h4
    unfold encode_mycelia_obj
    rcases h3 with h3 | h3 | h3 <;> simp [h1, h2, h3, h4]

/-- C5 witness: a `Transformer` built with an empty return address passes
command validation and is rejected by the encoder with the
missing-return-address `ValueError`. -/
theorem C5_validation_raised_at_encode_time_witness :
    cmd_valid (Transformer [] [114] [99] [97]) = true ∧
    (Transformer [] [114] [99] [97]).return_address = [] ∧
    encode_mycelia_obj [] (Transformer [] [114] [99] [97]) =
      Except.error PyErr.valueErrorMissingReturnAddress :=
  ⟨by decide, rfl,
   C5_validation_raised_at_encode_time.1 [] (Transformer [] [114] [99] [97])
     (by decide) rfl⟩

/-- C7 counterexample: a `GlobalValues` with no recognized field set (all
defaults, hence also no security token) raises `MissingSecurityTokenError`,
not an empty-update error — and the repository has no `EmptyUpdateError`
class at all (the dead branch raises a plain `ValueError`). -/
theorem C7_counterexample :
    Globals [65] {} = Except.error PyErr.missingSecurityTokenError := by
  decide

/-- C7 (amended): a GLOBALS update without a security token raises
`MissingSecurityTokenError` at construction time; the empty-update
`ValueError` branch is unreachable, because the mandatory token entry is
appended to the update dict before the emptiness check, so a GLOBALS
update with no recognized field set also raises
`MissingSecurityTokenError`.  A successful construction implies a token
was supplied. -/
theorem C7_globals_token_mandatory :
    (∀ (ra : List Nat) (gv : GlobalValues), gv.security_token = [] →
      Globals ra gv = Except.error PyErr.missingSecurityTokenError) ∧
    (∀ (ra : List Nat) (gv : GlobalValues),
      Globals ra gv ≠ Except.error PyErr.valueErrorEmptyUpdate) ∧
    (∀ (ra : List Nat) (gv : GlobalValues) (obj : MyceliaObj),
      Globals ra gv = Except.ok obj → gv.security_token ≠ []) := by
  have part1 : ∀ (ra : List Nat) (gv : GlobalValues), gv.security_token = [] →
      Globals ra gv = Except.error PyErr.missingSecurityTokenError := by
    intro ra gv h
    unfold Globals
    simp [h]
  refine ⟨part1, ?_, ?_⟩
  · intro ra gv
    by_cases h : gv.security_token = []
    · rw [part1 ra gv h]
      decide
    · unfold Globals
      simp [h]
  · intro ra gv obj hok hempty
    rw [part1 ra gv hempty] at hok
    simp at hok

/-- C7 witness: the all-defaults `GlobalValues` has an empty token and is
rejected with `MissingSecurityTokenError`. -/
theorem C7_globals_token_mandatory_witness :
    GlobalValues.security_token {} = [] ∧
    Globals [66] {} = Except.error PyErr.missingSecurityTokenError :=
  ⟨rfl, C7_globals_token_mandatory.1 [66] {} rfl⟩

/-- C6 counterexample: a complete, correctly length-prefixed 18-byte frame
(the encoding of a `Message` with return address `"A"`, route `"r"`, empty
payload, empty correlation id) delivered in two `recv` chunks is handed to
the processor as two separate raw chunks; the processor never receives the
assembled frame. -/
theorem C6_counterexample :
    encode_mycelia_obj [] (Message [65] [114] (Payload.str [])) =
      Except.ok ([0, 0, 0, 14, 1, 1, 1, 0, 0, 1] ++ [65, 1, 114, 0, 0, 0, 0, 0]) ∧
    listen_conn [[0, 0, 0, 14, 1, 1, 1, 0, 0, 1], [65, 1, 114, 0, 0, 0, 0, 0]] =
      [[0, 0, 0, 14, 1, 1, 1, 0, 0, 1], [65, 1, 114, 0, 0, 0, 0, 0]] ∧
    [[0, 0, 0, 14, 1, 1, 1, 0, 0, 1], [65, 1, 114, 0, 0, 0, 0, 0]] ≠
      [[0, 0, 0, 14, 1, 1, 1, 0, 0, 1] ++ [65, 1, 114, 0, 0, 0, 0, 0]] :=
  ⟨by decide, by decide, by decide⟩

/-- C6 (amended): the listener's per-connection loop performs no frame
assembly: it hands every nonempty `conn.recv(1024)` chunk directly to the
processor until an empty read, so the processor receives exactly the raw
chunk sequence.  The repository's `recv_exact` helper does implement
exact-length reads — whenever it returns, it returns exactly the requested
byte count — but the listener never calls it. -/
theorem C6_listener_passes_raw_chunks :
    (∀ chunks : List (List Nat),
      listen_conn chunks = chunks.takeWhile (fun c => !c.isEmpty)) ∧
    (∀ (chunks : List (List Nat)) (n : Nat) (res : List Nat),
      recv_exact chunks n = some res → res.length = n) := by
  constructor
  · intro chunks
    induction chunks with
    | nil => rfl
    | cons c rest ih =>
      by_cases h : c = []
      · simp [listen_conn, List.takeWhile_cons, h]
      · simp [listen_conn, List.takeWhile_cons, h, ih]
  · intro chunks
    induction chunks with
    | nil =>
      intro n res h
      unfold recv_exact at h
      split at h
      · rename_i hn
        cases h
        simp [hn]
      · simp at h
    | cons c rest ih =>
      intro n res h
      unfold recv_exact at h
      split at h
      · rename_i hn
        cases h
        simp [hn]
      · rename_i hn
        split at h
        · simp at h
        · rename_i payload' rest' hc
          injection hc with hc1 hc2
          subst hc1
          subst hc2
          by_cases hcc : c = []
          · rw [if_pos hcc] at h
            simp at h
          · rw [if_neg hcc] at h
            cases hrec : recv_exact rest (n - (List.take n c).length) with
            | none =>
              rw [hrec] at h
              simp at h
            | some tail =>
              rw [hrec] at h
              injection h with h
              subst h
              have htail := ih _ _ hrec
              simp [List.length_append, List.length_take, htail]

/-- C6 witness: `recv_exact` assembling three bytes from a two-byte and a
one-byte read returns exactly three bytes. -/
theorem C6_listener_passes_raw_chunks_witness :
    recv_exact [[1, 2], [3]] 3 = some [1, 2, 3] ∧
    ([1, 2, 3] : List Nat).length = 3 :=
  ⟨by decide,
   C6_listener_passes_raw_chunks.2 [[1, 2], [3]] 3 [1, 2, 3] (by decide)⟩

/-- Dropping the 4-byte length word of a frame leaves the frame body. -/
theorem drop_four_u32 (x : Int) (rest : List Nat) :
    (u32 x ++ rest).drop 4 = rest := by
  have h := List.drop_left (u32 x) rest
  rwa [u32_length] at h

/-- C2 counterexample: encoding the same command value twice does not
produce identical byte sequences — the correlation id is a fresh
`uuid.uuid4()` draw made inside `_encode_mycelia_obj` on each call (the
command object stores no correlation id at all), so two encodes of one
`Message` differ whenever the draws differ. -/
theorem C2_counterexample :
    encode_mycelia_obj [48] (Message [65] [114] (Payload.str [])) ≠
      encode_mycelia_obj [49] (Message [65] [114] (Payload.str [])) := by
  decide

/-- C2 (amended): encoding is a pure function of the command value and the
correlation-id draw; it reads but never writes the command.  Two
successful encodes of the same command (with draws `c1`, `c2`) produce
frames that share the three header bytes and the entire remainder after
the correlation-id field, differing only in that field and in the length
word it induces. -/
theorem C2_frames_differ_only_in_correlation_id :
    ∀ (c1 c2 : List Nat) (obj : MyceliaObj) (f1 f2 : List Nat),
      encode_mycelia_obj c1 obj = Except.ok f1 →
      encode_mycelia_obj c2 obj = Except.ok f2 →
      ∃ hdr tail,
        f1 = u32 ((hdr ++ pstr8 c1 ++ tail).length) ++ hdr ++ pstr8 c1 ++ tail ∧
        f2 = u32 ((hdr ++ pstr8 c2 ++ tail).length) ++ hdr ++ pstr8 c2 ++ tail ∧
        hdr.length = 3 := by
  intro c1 c2 obj f1 f2 h1 h2
  obtain ⟨pb1, hp1, e1⟩ := encode_ok_shape c1 obj f1 h1
  obtain ⟨pb2, hp2, e2⟩ := encode_ok_shape c2 obj f2 h2
  rw [hp1] at hp2
  injection hp2 with hpb
  subst hpb
  refine ⟨u8 obj.protocol_version ++ u8 obj.obj_type ++ u8 obj.cmd_type,
    pstr16 obj.return_address ++ pstr8 obj.arg1 ++ pstr8 obj.arg2 ++
      pstr8 obj.arg3 ++ pstr8 obj.arg4 ++ pbytes16 pb1, ?_, ?_, ?_⟩
  · rw [e1]
    simp [List.append_assoc]
  · rw [e2]
    simp [List.append_assoc]
  · simp [u8]

/-- C2 witness: the two frames produced for one `Message` under the draws
`"0"` and `"1"` share header and tail, differing only in the
correlation-id field and length word. -/
theorem C2_frames_differ_only_in_correlation_id_witness :
    ∃ hdr tail,
      ([0, 0, 0, 15, 1, 1, 1, 1, 48, 0, 1, 65, 1, 114, 0, 0, 0, 0, 0] : List Nat) =
        u32 ((hdr ++ pstr8 [48] ++ tail).length) ++ hdr ++ pstr8 [48] ++ tail ∧
      ([0, 0, 0, 15, 1, 1, 1, 1, 49, 0, 1, 65, 1, 114, 0, 0, 0, 0, 0] : List Nat) =
        u32 ((hdr ++ pstr8 [49] ++ tail).length) ++ hdr ++ pstr8 [49] ++ tail ∧
      hdr.length = 3 :=
  C2_frames_differ_only_in_correlation_id [48] [49]
    (Message [65] [114] (Payload.str []))
    [0, 0, 0, 15, 1, 1, 1, 1, 48, 0, 1, 65, 1, 114, 0, 0, 0, 0, 0]
    [0, 0, 0, 15, 1, 1, 1, 1, 49, 0, 1, 65, 1, 114, 0, 0, 0, 0, 0]
    (by decide) (by decide)

/-- C1 counterexample: the frame's leading u32 is not always the byte
length of everything after it.  The encoder accepts a `Message` whose
payload string is 2^32 UTF-8 bytes long (no size check exists), and the
length word wraps modulo 2^32: it declares 14 while 4294967310 bytes
follow. -/
theorem huge_payload_frame (R : List Nat) (hR : R.length = 4294967296) :
    encode_mycelia_obj [] (Message [65] [114] (Payload.str R)) =
      Except.ok ([0, 0, 0, 14, 1, 1, 1, 0, 0, 1, 65, 1, 114, 0, 0, 0, 0, 0] ++ R) ∧
    readU32 ([0, 0, 0, 14, 1, 1, 1, 0, 0, 1, 65, 1, 114, 0, 0, 0, 0, 0] ++ R) = 14 ∧
    (([0, 0, 0, 14, 1, 1, 1, 0, 0, 1, 65, 1, 114, 0, 0, 0, 0, 0] ++ R).drop 4).length =
      4294967310 := by
  refine ⟨?_, by simp [readU32, bytesToNat], by simp [hR]⟩
  unfold encode_mycelia_obj
  norm_num [Message, cmd_valid, payloadEncode, OBJ_MESSAGE, OBJ_TRANSFORMER,
    OBJ_SUBSCRIBER, OBJ_GLOBALS, OBJ_ACTION, CMD_SEND, API_PROTOCOL_VER,
    pstr8, pstr16, pbytes16, u8, u16, u32, List.length_append, hR,
    Int.toNat_ofNat, List.cons_ne_nil]
  omega

theorem C1_counterexample :
    encode_mycelia_obj []
        (Message [65] [114] (Payload.str (List.replicate 4294967296 97))) =
      Except.ok ([0, 0, 0, 14, 1, 1, 1, 0, 0, 1, 65, 1, 114, 0, 0, 0, 0, 0] ++
        List.replicate 4294967296 97) ∧
    readU32 ([0, 0, 0, 14, 1, 1, 1, 0, 0, 1, 65, 1, 114, 0, 0, 0, 0, 0] ++
      List.replicate 4294967296 97) = 14 ∧
    (([0, 0, 0, 14, 1, 1, 1, 0, 0, 1, 65, 1, 114, 0, 0, 0, 0, 0] ++
      List.replicate 4294967296 97).drop 4).length = 4294967310 ∧
    (14 : Nat) ≠ 4294967310 := by
  have h := huge_payload_frame (List.replicate 4294967296 97)
    (List.length_replicate 4294967296 97)
  exact ⟨h.1, h.2.1, h.2.2, by norm_num⟩

/-- C1 (amended): every successful encode emits exactly the spec layout —
`u32` length word, then version, obj type and cmd type bytes, 8-bit
length-prefixed correlation id, 16-bit length-prefixed return address,
four 8-bit length-prefixed argument slots, 16-bit length-prefixed payload —
with the leading u32 equal to the byte length of everything after it
reduced modulo 2^32, hence exact whenever the frame is shorter than
4 + 2^32 bytes; and the `Message("A", "orders", "hello")` example encodes
to `[version=1][obj_type=1][cmd_type=1]` followed by the length-prefixed
correlation id, return address `"A"`, argument slots
("orders", "", "", "") and payload `"hello"`. -/
theorem C1_frame_layout :
    (∀ (c : List Nat) (obj : MyceliaObj) (f : List Nat),
      encode_mycelia_obj c obj = Except.ok f →
      ∃ pb, payloadEncode obj.payload = Except.ok pb ∧
        f = u32 ((specFrameBody c obj pb).length) ++ specFrameBody c obj pb) ∧
    (∀ (c : List Nat) (obj : MyceliaObj) (f : List Nat),
      encode_mycelia_obj c obj = Except.ok f →
      readU32 f = (f.drop 4).length % 4294967296) ∧
    (∀ (c : List Nat) (obj : MyceliaObj) (f : List Nat),
      encode_mycelia_obj c obj = Except.ok f → f.length < 4 + 4294967296 →
      readU32 f = (f.drop 4).length) ∧
    (∀ c : List Nat,
      encode_mycelia_obj c
          (Message [65] [111, 114, 100, 101, 114, 115]
            (Payload.str [104, 101, 108, 108, 111])) =
        Except.ok (u32 ((24 : Nat) + c.length) ++
          [1, 1, 1] ++ pstr8 c ++ [0, 1, 65] ++
          [6, 111, 114, 100, 101, 114, 115] ++ [0] ++ [0] ++ [0] ++
          [0, 5, 104, 101, 108, 108, 111])) := by
  have shape : ∀ (c : List Nat) (obj : MyceliaObj) (f : List Nat),
      encode_mycelia_obj c obj = Except.ok f →
      ∃ pb, payloadEncode obj.payload = Except.ok pb ∧
        f = u32 ((specFrameBody c obj pb).length) ++ specFrameBody c obj pb := by
    intro c obj f h
    obtain ⟨pb, hp, e⟩ := encode_ok_shape c obj f h
    exact ⟨pb, hp, by rw [e]; rfl⟩
  refine ⟨shape, ?_, ?_, ?_⟩
  · intro c obj f h
    obtain ⟨pb, hp, e⟩ := shape c obj f h
    rw [e, drop_four_u32, readU32_u32]
  · intro c obj f h hlen
    obtain ⟨pb, hp, e⟩ := shape c obj f h
    rw [e] at hlen ⊢
    rw [drop_four_u32, readU32_u32]
    rw [List.length_append, u32_length] at hlen
    omega
  · intro c
    unfold encode_mycelia_obj
    norm_num [Message, cmd_valid, payloadEncode, OBJ_MESSAGE, OBJ_TRANSFORMER,
      OBJ_SUBSCRIBER, OBJ_GLOBALS, OBJ_ACTION, CMD_SEND, API_PROTOCOL_VER,
      pstr8, pstr16, pbytes16, u8, u16, u32, List.length_append,
      Int.toNat_ofNat, List.cons_ne_nil]
    omega

/-- C1 witness: the layout conjunct applied to a concrete `Message` frame
produced with an empty correlation-id draw. -/
theorem C1_frame_layout_witness :
    ∃ pb, payloadEncode (Message [65] [114] (Payload.str [])).payload =
        Except.ok pb ∧
      ([0, 0, 0, 14, 1, 1, 1, 0, 0, 1, 65, 1, 114, 0, 0, 0, 0, 0] : List Nat) =
        u32 ((specFrameBody [] (Message [65] [114] (Payload.str [])) pb).length) ++
          specFrameBody [] (Message [65] [114] (Payload.str [])) pb :=
  C1_frame_layout.1 [] (Message [65] [114] (Payload.str []))
    [0, 0, 0, 14, 1, 1, 1, 0, 0, 1, 65, 1, 114, 0, 0, 0, 0, 0] (by decide)

example : u8 300 = [44] := by decide
example : u16 (-1) = [255, 255] := by decide
example : u32 4294967296 = [0, 0, 0, 0] := by decide
example : pstr8 [65, 66] = [2, 65, 66] := by decide
example : cmd_valid (Message [65] [114] (Payload.str [])) = true := by decide
example : cmd_valid (Action [65]) = false := by decide

end Mycelia
